import Mathlib

/-!
K-Crimpelligence hardware layer: `Motor` and `ToFSensor`

A shallow embedding of `src/hardware/motor.{h,cpp}` and `src/hardware/tof.{h,cpp}`.

* The GPIO primitives `pinMode` / `digitalWrite` act on an explicit `Board`
  (mode and level of every pin, plus the log of primitive calls issued).
* The VL53LX vendor driver is an arbitrary deterministic state machine
  (`Driver σ`); the wrapper methods thread its state and record every driver call
  and every `Serial` write in a trace.
* The `do … while (!ready)` loops are bounded by a fuel argument; `none` means the
  loop was still spinning when the fuel ran out.
-/

namespace Hardware

/-! ## GPIO board -/

/-- Arduino pin modes used by the sources. -/
inductive PinMode where
  | INPUT
  | OUTPUT
  deriving DecidableEq, Repr

/-- Arduino digital levels. -/
inductive Level where
  | LOW
  | HIGH
  deriving DecidableEq, Repr

export PinMode (INPUT OUTPUT)
export Level (LOW HIGH)

/-- One call of a host GPIO primitive. -/
inductive GpioCall where
  | pinMode (pin : Int) (mode : PinMode)
  | digitalWrite (pin : Int) (val : Level)
  deriving DecidableEq, Repr

/-- Observable GPIO state: mode and level of every pin, and the calls issued so far
(oldest first). -/
structure Board where
  mode : Int → PinMode
  level : Int → Level
  log : List GpioCall

/-- Host primitive `pinMode(pin, mode)`: sets the mode of `pin` only. -/
def pinMode (pin : Int) (m : PinMode) (b : Board) : Board :=
  { b with
    mode := fun p => if p = pin then m else b.mode p
    log := b.log ++ [GpioCall.pinMode pin m] }

/-- Host primitive `digitalWrite(pin, val)`: sets the level of `pin` only. -/
def digitalWrite (pin : Int) (v : Level) (b : Board) : Board :=
  { b with
    level := fun p => if p = pin then v else b.level p
    log := b.log ++ [GpioCall.digitalWrite pin v] }

/-! ## `Motor` (motor.h, motor.cpp) -/

namespace Motor

/-- Field `int motorIN1Pin = 10;` of motor.h. -/
def motorIN1Pin : Int := 10
/-- Field `int motorIN2Pin = 11;` of motor.h. -/
def motorIN2Pin : Int := 11
/-- Field `int motorIN3Pin = 12;` of motor.h. -/
def motorIN3Pin : Int := 12
/-- Field `int motorIN4Pin = 13;` of motor.h. -/
def motorIN4Pin : Int := 13

/-- Method `Motor::initialize` (motor.cpp 8-13); the source name is a reserved word
of Lean, hence `init`. -/
def init (b : Board) : Board :=
  let b := pinMode motorIN1Pin OUTPUT b
  let b := pinMode motorIN2Pin OUTPUT b
  let b := pinMode motorIN3Pin OUTPUT b
  pinMode motorIN4Pin OUTPUT b

/-- Method `Motor::goForward` (motor.cpp 15-20). -/
def goForward (b : Board) : Board :=
  let b := digitalWrite motorIN1Pin HIGH b
  let b := digitalWrite motorIN2Pin LOW b
  let b := digitalWrite motorIN3Pin HIGH b
  digitalWrite motorIN4Pin LOW b

/-- Method `Motor::goBackward` (motor.cpp 22-27). -/
def goBackward (b : Board) : Board :=
  let b := digitalWrite motorIN1Pin LOW b
  let b := digitalWrite motorIN2Pin HIGH b
  let b := digitalWrite motorIN3Pin LOW b
  digitalWrite motorIN4Pin HIGH b

/-- Method `Motor::goLeft` (motor.cpp 29-34). -/
def goLeft (b : Board) : Board :=
  let b := digitalWrite motorIN1Pin LOW b
  let b := digitalWrite motorIN2Pin HIGH b
  let b := digitalWrite motorIN3Pin HIGH b
  digitalWrite motorIN4Pin LOW b

/-- Method `Motor::goRight` (motor.cpp 36-41). -/
def goRight (b : Board) : Board :=
  let b := digitalWrite motorIN1Pin HIGH b
  let b := digitalWrite motorIN2Pin LOW b
  let b := digitalWrite motorIN3Pin LOW b
  digitalWrite motorIN4Pin HIGH b

/-- Method `Motor::stop` (motor.cpp 43-48). -/
def stop (b : Board) : Board :=
  let b := digitalWrite motorIN1Pin LOW b
  let b := digitalWrite motorIN2Pin LOW b
  let b := digitalWrite motorIN3Pin LOW b
  digitalWrite motorIN4Pin LOW b

/-- The five level-writing commands of the class, as data, so that command sequences
can be quantified over. -/
inductive Command where
  | goForward
  | goBackward
  | goLeft
  | goRight
  | stop
  deriving DecidableEq, Repr

/-- Executes one command. -/
def Command.run : Command → Board → Board
  | .goForward => Motor.goForward
  | .goBackward => Motor.goBackward
  | .goLeft => Motor.goLeft
  | .goRight => Motor.goRight
  | .stop => Motor.stop

/-- Executes a sequence of commands, first element first. -/
def runAll (cs : List Command) (b : Board) : Board :=
  cs.foldl (fun acc c => c.run acc) b

/-- Levels of (IN1, IN2, IN3, IN4). -/
def pins (b : Board) : Level × Level × Level × Level :=
  (b.level motorIN1Pin, b.level motorIN2Pin, b.level motorIN3Pin, b.level motorIN4Pin)

/-- Number of pins among `ps` whose level is `v`. -/
def countLevel (v : Level) (ps : List Int) (b : Board) : Nat :=
  (ps.filter (fun p => decide (b.level p = v))).length

/-- The four motor pins. -/
def motorPins : List Int := [motorIN1Pin, motorIN2Pin, motorIN3Pin, motorIN4Pin]

/-- Exactly two of IN1..IN4 are high and two are low, one high pin in each of the side
pairs IN1/IN2 and IN3/IN4. -/
def TwoHighOnePerSide (b : Board) : Prop :=
  countLevel HIGH motorPins b = 2
  ∧ countLevel LOW motorPins b = 2
  ∧ countLevel HIGH [motorIN1Pin, motorIN2Pin] b = 1
  ∧ countLevel HIGH [motorIN3Pin, motorIN4Pin] b = 1

/-- The `pinMode` calls in a log. -/
def modeCalls (l : List GpioCall) : List GpioCall :=
  l.filter (fun c => match c with
    | GpioCall.pinMode _ _ => true
    | GpioCall.digitalWrite _ _ => false)

end Motor

/-! ## VL53LX driver boundary -/

/-- Modelled from the spec: one entry of `RangeData[]` in the vendor type
`VL53LX_MultiRangingData_t` (vl53lx_class.h is not part of the sources): for each detected
object a millimeter distance, a signal quality code, and signal-return and ambient rate
measurements. Only the fields read by tof.cpp are kept; the distance is a signed integer,
the others are unsigned. -/
structure TargetRangeData where
  RangeStatus : Nat
  RangeMilliMeter : Int
  SignalRateRtnMegaCps : Nat
  AmbientRateRtnMegaCps : Nat

/-- Modelled from the spec: the vendor type `VL53LX_MultiRangingData_t` (vl53lx_class.h is
not part of the sources): a stream counter, a count of detected objects and the per-object
entries. `RangeData` is indexed by any `j`, as the code indexes it with no bound check. -/
structure MultiRangingData where
  StreamCount : Nat
  NumberOfObjectsFound : Nat
  RangeData : Nat → TargetRangeData

/-- Everything the wrapper does that is visible outside it: calls into the vendor driver
and writes to `Serial`, in program order. -/
inductive Event where
  | GetMeasurementDataReady
  | GetMultiRangingData
  | ClearInterruptAndStartMeasurement
  | StartMeasurement
  /-- `Serial.print(const char*)`. -/
  | print (s : String)
  /-- `Serial.print` of an unsigned integer field. -/
  | printNat (v : Nat)
  /-- `Serial.print` of a signed integer field. -/
  | printInt (v : Int)
  /-- `Serial.print((float)raw / 65536.0)`; the argument is the raw 16.16 value. -/
  | printRate (raw : Nat)
  /-- `Serial.println(const char*)`. -/
  | println (s : String)
  deriving DecidableEq, Repr

/-- Result of `VL53LX_GetMeasurementDataReady(&flag)`: the driver's next state, the
returned status and the value of `flag` after the call. The flag is `0` before every call
the wrapper makes, so a driver that leaves it untouched is one that answers `0`. -/
structure ReadyResp (σ : Type) where
  state : σ
  status : Int
  ready : Nat

/-- Result of `VL53LX_GetMultiRangingData(p)`: next state, status, and the content of `*p`
after the call. -/
structure RangingResp (σ : Type) where
  state : σ
  status : Int
  data : MultiRangingData

/-- Result of `VL53LX_ClearInterruptAndStartMeasurement()`: next state and status. -/
structure ClearResp (σ : Type) where
  state : σ
  status : Int

/-- The vendor driver as seen by tof.cpp: a deterministic machine over an arbitrary state
type, one transition function per entry point used by the read operations. -/
structure Driver (σ : Type) where
  VL53LX_GetMeasurementDataReady : σ → ReadyResp σ
  VL53LX_GetMultiRangingData : σ → RangingResp σ
  VL53LX_ClearInterruptAndStartMeasurement : σ → ClearResp σ

/-! ## `ToFSensor` (tof.h, tof.cpp) -/

namespace ToFSensor

/-- Locals of a read operation when its `do … while` loop is left. -/
structure Wait (σ : Type) where
  state : σ
  status : Int
  NewDataReady : Nat
  trace : List Event

/-- The loop `do { status = sensor->VL53LX_GetMeasurementDataReady(&NewDataReady); }
while (!NewDataReady);` (tof.cpp 35-37, 61-63, 93-95: the three copies differ only in the
name of the flag). `fuel` bounds the number of iterations. -/
def waitReady {σ : Type} (d : Driver σ) : Nat → σ → Option (Wait σ)
  | 0, _ => none
  | fuel + 1, s =>
    let r := d.VL53LX_GetMeasurementDataReady s
    if r.ready = 0 then
      (waitReady d fuel r.state).map
        (fun w => { w with trace := Event.GetMeasurementDataReady :: w.trace })
    else
      some { state := r.state, status := r.status, NewDataReady := r.ready,
             trace := [Event.GetMeasurementDataReady] }

/-- What a read operation leaves behind: returned value, driver state, and the trace of
driver calls and serial writes it made. -/
structure Outcome (σ α : Type) where
  ret : α
  state : σ
  trace : List Event

/-- Method `ToFSensor::read_distance` (tof.cpp 28-51). -/
def read_distance {σ : Type} (d : Driver σ) (fuel : Nat) (s : σ) : Option (Outcome σ Int) :=
  match waitReady d fuel s with
  | none => none
  | some w =>
    if w.status = 0 ∧ w.NewDataReady ≠ 0 then
      let f := d.VL53LX_GetMultiRangingData w.state
      let tr := w.trace ++ [Event.GetMultiRangingData]
      let no_of_object_found : Int := f.data.NumberOfObjectsFound
      if no_of_object_found ≥ 1 then
        some { ret := (f.data.RangeData 0).RangeMilliMeter, state := f.state, trace := tr }
      else if f.status = 0 then
        let c := d.VL53LX_ClearInterruptAndStartMeasurement f.state
        some { ret := -1, state := c.state,
               trace := tr ++ [Event.ClearInterruptAndStartMeasurement] }
      else
        some { ret := -1, state := f.state, trace := tr }
    else
      some { ret := -1, state := w.state, trace := w.trace }

/-- The call `snprintf(report, sizeof(report), …)` with `char report[64]`: at most 63
characters are kept. -/
def snprintf64 (s : String) : String := s.take 63

/-- Body of the `for` loop of `show_measurement` for index `j` (tof.cpp 71-81). -/
def printObject (data : MultiRangingData) (j : Nat) : List Event :=
  (if j ≠ 0 then [Event.print "\r\n                               "] else []) ++
  [ Event.print "status=",
    Event.printNat (data.RangeData j).RangeStatus,
    Event.print ", D=",
    Event.printInt (data.RangeData j).RangeMilliMeter,
    Event.print "mm",
    Event.print ", Signal=",
    Event.printRate (data.RangeData j).SignalRateRtnMegaCps,
    Event.print " Mcps, Ambient=",
    Event.printRate (data.RangeData j).AmbientRateRtnMegaCps,
    Event.print " Mcps" ]

/-- Serial writes of `show_measurement` (tof.cpp 68-83): header, one block per object for
`j = 0 … no_of_object_found - 1`, end of line. -/
def report (data : MultiRangingData) : List Event :=
  [ Event.print (snprintf64 ("VL53LX Satellite: Count=" ++ toString data.StreamCount
      ++ ", #Objs=" ++ toString data.NumberOfObjectsFound ++ " ")) ]
  ++ ((List.range data.NumberOfObjectsFound).map (printObject data)).flatten
  ++ [ Event.println "" ]

/-- Method `ToFSensor::show_measurement` (tof.cpp 53-88). -/
def show_measurement {σ : Type} (d : Driver σ) (fuel : Nat) (s : σ) :
    Option (Outcome σ Unit) :=
  match waitReady d fuel s with
  | none => none
  | some w =>
    if w.status = 0 ∧ w.NewDataReady ≠ 0 then
      let f := d.VL53LX_GetMultiRangingData w.state
      let tr := w.trace ++ [Event.GetMultiRangingData] ++ report f.data
      if f.status = 0 then
        let c := d.VL53LX_ClearInterruptAndStartMeasurement f.state
        some { ret := (), state := c.state,
               trace := tr ++ [Event.ClearInterruptAndStartMeasurement] }
      else
        some { ret := (), state := f.state, trace := tr }
    else
      some { ret := (), state := w.state, trace := w.trace }

/-- Outcome of `read_measurement`: the returned flag and the content of the caller's
structure `*data` when the method returns. -/
structure MeasurementOutcome (σ : Type) where
  ret : Bool
  data : MultiRangingData
  state : σ
  trace : List Event

/-- Method `ToFSensor::read_measurement` (tof.cpp 90-101); `data` is the content of the
caller's structure on entry. -/
def read_measurement {σ : Type} (d : Driver σ) (fuel : Nat) (s : σ)
    (data : MultiRangingData) : Option (MeasurementOutcome σ) :=
  match waitReady d fuel s with
  | none => none
  | some w =>
    if w.status ≠ 0 then
      some { ret := false, data := data, state := w.state, trace := w.trace }
    else
      let f := d.VL53LX_GetMultiRangingData w.state
      some { ret := true, data := f.data, state := f.state,
             trace := w.trace ++ [Event.GetMultiRangingData] }

/-! ### Driver behaviours -/

/-- Driver state after `i` readiness polls issued from state `s`. -/
def pollState {σ : Type} (d : Driver σ) : Nat → σ → σ
  | 0, s => s
  | i + 1, s => pollState d i (d.VL53LX_GetMeasurementDataReady s).state

/-- Response to poll number `i + 1` of a run of polls issued from state `s`. -/
def pollResp {σ : Type} (d : Driver σ) (i : Nat) (s : σ) : ReadyResp σ :=
  d.VL53LX_GetMeasurementDataReady (pollState d i s)

/-- The readiness wait started in state `s` ends at poll number `m + 1`: the first `m`
responses carry a zero flag and the next one a non-zero flag. -/
def FirstReady {σ : Type} (d : Driver σ) (s : σ) (m : Nat) : Prop :=
  (∀ i, i < m → (pollResp d i s).ready = 0) ∧ (pollResp d m s).ready ≠ 0

instance {σ : Type} (d : Driver σ) (s : σ) (m : Nat) : Decidable (FirstReady d s m) := by
  unfold FirstReady; infer_instance

/-- The driver never raises the flag on a run of polls issued from state `s`. -/
def NeverReady {σ : Type} (d : Driver σ) (s : σ) : Prop :=
  ∀ i, (pollResp d i s).ready = 0

/-- Two drivers that differ at most in the status their readiness poll returns. -/
def SameUpToPollStatus {σ : Type} (d d' : Driver σ) : Prop :=
  (∀ t, (d.VL53LX_GetMeasurementDataReady t).state = (d'.VL53LX_GetMeasurementDataReady t).state
      ∧ (d.VL53LX_GetMeasurementDataReady t).ready = (d'.VL53LX_GetMeasurementDataReady t).ready)
  ∧ d.VL53LX_GetMultiRangingData = d'.VL53LX_GetMultiRangingData
  ∧ d.VL53LX_ClearInterruptAndStartMeasurement = d'.VL53LX_ClearInterruptAndStartMeasurement

/-- Tells driver calls from serial writes. -/
def isDriverCall : Event → Bool
  | .GetMeasurementDataReady => true
  | .GetMultiRangingData => true
  | .ClearInterruptAndStartMeasurement => true
  | .StartMeasurement => true
  | _ => false

/-- The number of readiness polls in a trace. -/
def pollCount (tr : List Event) : Nat := tr.count Event.GetMeasurementDataReady

/-! ### Concrete drivers used to instantiate the statements -/

/-- A driver whose state counts the readiness polls made so far: poll number `i + 1`
answers `polls[i]` (status, flag), or `(0, 1)` once the script is exhausted; every fetch
answers `(fetchStatus, data)`; every restart answers status `0`. -/
def scripted (polls : List (Int × Nat)) (fetchStatus : Int) (data : MultiRangingData) :
    Driver Nat where
  VL53LX_GetMeasurementDataReady i :=
    { state := i + 1, status := (polls.getD i (0, 1)).1, ready := (polls.getD i (0, 1)).2 }
  VL53LX_GetMultiRangingData i := { state := i, status := fetchStatus, data := data }
  VL53LX_ClearInterruptAndStartMeasurement i := { state := i, status := 0 }

/-- A driver that never reports readiness. -/
def silent : Driver Unit where
  VL53LX_GetMeasurementDataReady _ := { state := (), status := 0, ready := 0 }
  VL53LX_GetMultiRangingData _ :=
    { state := (), status := 0,
      data := { StreamCount := 0, NumberOfObjectsFound := 0, RangeData := fun _ => ⟨0, 0, 0, 0⟩ } }
  VL53LX_ClearInterruptAndStartMeasurement _ := { state := (), status := 0 }

/-- A ranging result with `n` objects, all at distance `mm`. -/
def sampleData (n : Nat) (mm : Int) : MultiRangingData :=
  { StreamCount := 7, NumberOfObjectsFound := n, RangeData := fun _ => ⟨0, mm, 65536, 0⟩ }

/-- One poll answering status -1 with the flag raised; the sensor holds two objects at
350 mm. -/
def pollError : Driver Nat := scripted [(-1, 1)] 0 (sampleData 2 350)

/-- Two idle polls with statuses 4 and -2, then a ready poll with status 0; the fetch
succeeds with two objects, the first at 350 mm. -/
def twoObjectsLate : Driver Nat := scripted [(4, 0), (-2, 0), (0, 1)] 0 (sampleData 2 350)

/-- The same flags as `twoObjectsLate`, other statuses on the two idle polls. -/
def twoObjectsLateAlt : Driver Nat :=
  scripted [(0, 0), (9, 0), (0, 1)] 0 (sampleData 2 350)

/-- Ready at the first poll with status 0; the fetch succeeds with two objects, the first
at 350 mm. -/
def twoObjects : Driver Nat := scripted [(0, 1)] 0 (sampleData 2 350)

/-- Ready at the first poll with status 0; the fetch succeeds with no object. -/
def noObjects : Driver Nat := scripted [(0, 1)] 0 (sampleData 0 0)

/-- Ready at the first poll with status 0; the fetch answers status -1 and one object at
100 mm. -/
def fetchError : Driver Nat := scripted [(0, 1)] (-1) (sampleData 1 100)

end ToFSensor

/-! ## Motor: pin patterns -/

namespace Motor

theorem pins_goForward (b : Board) : pins (goForward b) = (HIGH, LOW, HIGH, LOW) := by
  simp [pins, goForward, digitalWrite, motorIN1Pin, motorIN2Pin, motorIN3Pin, motorIN4Pin]

theorem pins_goBackward (b : Board) : pins (goBackward b) = (LOW, HIGH, LOW, HIGH) := by
  simp [pins, goBackward, digitalWrite, motorIN1Pin, motorIN2Pin, motorIN3Pin, motorIN4Pin]

theorem pins_goLeft (b : Board) : pins (goLeft b) = (LOW, HIGH, HIGH, LOW) := by
  simp [pins, goLeft, digitalWrite, motorIN1Pin, motorIN2Pin, motorIN3Pin, motorIN4Pin]

theorem pins_goRight (b : Board) : pins (goRight b) = (HIGH, LOW, LOW, HIGH) := by
  simp [pins, goRight, digitalWrite, motorIN1Pin, motorIN2Pin, motorIN3Pin, motorIN4Pin]

theorem pins_stop (b : Board) : pins (stop b) = (LOW, LOW, LOW, LOW) := by
  simp [pins, stop, digitalWrite, motorIN1Pin, motorIN2Pin, motorIN3Pin, motorIN4Pin]

/-- The pin levels a command leaves do not depend on the board it started from. -/
theorem pins_run_const (c : Command) (b b' : Board) : pins (c.run b) = pins (c.run b') := by
  cases c <;>
    simp [Command.run, pins_goForward, pins_goBackward, pins_goLeft, pins_goRight, pins_stop]

theorem runAll_append_singleton (cs : List Command) (c : Command) (b : Board) :
    runAll (cs ++ [c]) b = c.run (runAll cs b) := by
  simp [runAll, List.foldl_append]

/-- Counting a level over the four motor pins only looks at `pins`. -/
theorem countLevel_of_pins (v : Level) (b : Board) (x1 x2 x3 x4 : Level)
    (h : pins b = (x1, x2, x3, x4)) :
    countLevel v [motorIN1Pin, motorIN2Pin] b
        = (if x1 = v then 1 else 0) + (if x2 = v then 1 else 0)
      ∧ countLevel v [motorIN3Pin, motorIN4Pin] b
        = (if x3 = v then 1 else 0) + (if x4 = v then 1 else 0)
      ∧ countLevel v motorPins b
        = (if x1 = v then 1 else 0) + (if x2 = v then 1 else 0)
          + (if x3 = v then 1 else 0) + (if x4 = v then 1 else 0) := by
  simp only [pins, Prod.mk.injEq] at h
  obtain ⟨h1, h2, h3, h4⟩ := h
  subst h1 h2 h3 h4
  refine ⟨?_, ?_, ?_⟩ <;>
    simp only [countLevel, motorPins, List.filter_cons, List.filter_nil] <;>
    (repeat' split) <;> simp_all

end Motor

/-! ## ToFSensor: the readiness wait -/

namespace ToFSensor

variable {σ : Type}

theorem pollResp_succ (d : Driver σ) (i : Nat) (s : σ) :
    pollResp d (i + 1) s = pollResp d i (d.VL53LX_GetMeasurementDataReady s).state := rfl

theorem FirstReady.tail {d : Driver σ} {s : σ} {m : Nat} (h : FirstReady d s (m + 1)) :
    FirstReady d (d.VL53LX_GetMeasurementDataReady s).state m :=
  ⟨fun i hi => by rw [← pollResp_succ]; exact h.1 (i + 1) (by omega),
   by rw [← pollResp_succ]; exact h.2⟩

theorem FirstReady.head {d : Driver σ} {s : σ} {m : Nat} (h : FirstReady d s (m + 1)) :
    (d.VL53LX_GetMeasurementDataReady s).ready = 0 :=
  h.1 0 (by omega)

/-- With enough fuel the loop is left at the first non-zero flag, after `m + 1` polls,
holding the status of that last poll. -/
theorem waitReady_of_firstReady (d : Driver σ) :
    ∀ (m : Nat) (s : σ), FirstReady d s m → ∀ fuel, m < fuel →
      waitReady d fuel s = some
        { state := (pollResp d m s).state, status := (pollResp d m s).status,
          NewDataReady := (pollResp d m s).ready,
          trace := List.replicate (m + 1) Event.GetMeasurementDataReady } := by
  intro m
  induction m with
  | zero =>
    intro s h fuel hf
    obtain ⟨f, rfl⟩ : ∃ f, fuel = f + 1 := ⟨fuel - 1, by omega⟩
    have h2 : (d.VL53LX_GetMeasurementDataReady s).ready ≠ 0 := h.2
    simp [waitReady, h2, pollResp, pollState]
  | succ m ih =>
    intro s h fuel hf
    obtain ⟨f, rfl⟩ : ∃ f, fuel = f + 1 := ⟨fuel - 1, by omega⟩
    have h0 := h.head
    have := ih _ h.tail f (by omega)
    simp [waitReady, h0, this, pollResp_succ, List.replicate_succ]

/-- With fuel for at most `m` polls the loop is still spinning. -/
theorem waitReady_none_of_le (d : Driver σ) :
    ∀ (m : Nat) (s : σ), FirstReady d s m → ∀ fuel, fuel ≤ m → waitReady d fuel s = none := by
  intro m
  induction m with
  | zero =>
    intro s _ fuel hf
    obtain rfl : fuel = 0 := by omega
    rfl
  | succ m ih =>
    intro s h fuel hf
    cases fuel with
    | zero => rfl
    | succ f =>
      have h0 := h.head
      have := ih _ h.tail f (by omega)
      simp [waitReady, h0, this]

/-- A driver that never raises the flag keeps the loop spinning for any fuel. -/
theorem waitReady_of_neverReady (d : Driver σ) :
    ∀ fuel (s : σ), NeverReady d s → waitReady d fuel s = none := by
  intro fuel
  induction fuel with
  | zero => intro s _; rfl
  | succ f ih =>
    intro s h
    have h0 : (d.VL53LX_GetMeasurementDataReady s).ready = 0 := h 0
    have ht : NeverReady d (d.VL53LX_GetMeasurementDataReady s).state :=
      fun i => by rw [← pollResp_succ]; exact h (i + 1)
    simp [waitReady, h0, ih _ ht]

/-- The loop only depends on the driver through the flags and next states of its polls,
and on the status of the poll that ends it. -/
theorem waitReady_congr {d d' : Driver σ} (hd : SameUpToPollStatus d d') :
    ∀ (m : Nat) (s : σ), FirstReady d s m →
      FirstReady d' s m ∧ (pollResp d' m s).state = (pollResp d m s).state
        ∧ (pollResp d' m s).ready = (pollResp d m s).ready := by
  intro m
  induction m with
  | zero =>
    intro s h
    have e := hd.1 s
    refine ⟨⟨fun i hi => absurd hi (by omega), ?_⟩, e.1.symm, e.2.symm⟩
    have h2 : (d.VL53LX_GetMeasurementDataReady s).ready ≠ 0 := h.2
    show (d'.VL53LX_GetMeasurementDataReady s).ready ≠ 0
    rw [← e.2]; exact h2
  | succ m ih =>
    intro s h
    have e := hd.1 s
    have := ih _ h.tail
    rw [e.1] at this
    refine ⟨⟨?_, ?_⟩, ?_, ?_⟩
    · intro i hi
      cases i with
      | zero =>
        show (d'.VL53LX_GetMeasurementDataReady s).ready = 0
        rw [← e.2]; exact h.head
      | succ i => rw [pollResp_succ]; exact this.1.1 i (by omega)
    · rw [pollResp_succ]; exact this.1.2
    · rw [pollResp_succ, pollResp_succ, e.1]; exact this.2.1
    · rw [pollResp_succ, pollResp_succ, e.1]; exact this.2.2

theorem count_replicate_other (n : Nat) (e : Event) (he : e ≠ Event.GetMeasurementDataReady) :
    (List.replicate n Event.GetMeasurementDataReady).count e = 0 := by
  rw [List.count_eq_zero]
  intro hmem
  exact he (List.eq_of_mem_replicate hmem)

theorem take_polls_append (n : Nat) (l : List Event) :
    (List.replicate n Event.GetMeasurementDataReady ++ l).take n
      = List.replicate n Event.GetMeasurementDataReady := by
  induction n with
  | zero => simp
  | succ n ih => simp [List.replicate_succ, ih]

theorem pollResp_congr {σ : Type} {d d' : Driver σ} (hd : SameUpToPollStatus d d')
    (m : Nat) (s : σ) (h : FirstReady d s m)
    (hst : (pollResp d' m s).status = (pollResp d m s).status) :
    pollResp d' m s = pollResp d m s := by
  obtain ⟨_, h1, h2⟩ := waitReady_congr hd m s h
  revert h1 h2 hst
  generalize pollResp d' m s = x
  generalize pollResp d m s = y
  intro hst h1 h2
  cases x
  cases y
  simp_all

theorem count_replicate_poll (n : Nat) :
    pollCount (List.replicate n Event.GetMeasurementDataReady) = n := by
  simp [pollCount]

theorem printObject_serial_only (data : MultiRangingData) (j : Nat) :
    (printObject data j).all (fun e => !isDriverCall e) = true := by
  unfold printObject
  split <;> rfl

/-- The serial writes of `show_measurement` contain no driver call. -/
theorem report_serial_only (data : MultiRangingData) :
    ∀ e ∈ report data, isDriverCall e = false := by
  intro e he
  simp only [report, List.mem_append, List.mem_singleton, List.mem_flatten, List.mem_map,
    List.mem_range] at he
  rcases he with (rfl | ⟨l, ⟨j, _, rfl⟩, hl⟩) | rfl
  · rfl
  · have := List.all_eq_true.mp (printObject_serial_only data j) e hl
    simpa using this
  · rfl

theorem clear_not_mem_report (data : MultiRangingData) :
    Event.ClearInterruptAndStartMeasurement ∉ report data :=
  fun h => by simpa [isDriverCall] using report_serial_only data _ h

theorem poll_not_mem_report (data : MultiRangingData) :
    Event.GetMeasurementDataReady ∉ report data :=
  fun h => by simpa [isDriverCall] using report_serial_only data _ h

/-- Closed form of `read_distance` once the wait is known to end at poll `m + 1`. -/
theorem read_distance_eq (d : Driver σ) (m : Nat) (s : σ) (h : FirstReady d s m)
    (fuel : Nat) (hf : m < fuel) :
    read_distance d fuel s = some
      (if (pollResp d m s).status = 0 then
        if 1 ≤ (d.VL53LX_GetMultiRangingData (pollResp d m s).state).data.NumberOfObjectsFound
        then
          { ret := ((d.VL53LX_GetMultiRangingData (pollResp d m s).state).data.RangeData
              0).RangeMilliMeter,
            state := (d.VL53LX_GetMultiRangingData (pollResp d m s).state).state,
            trace := List.replicate (m + 1) Event.GetMeasurementDataReady
              ++ [Event.GetMultiRangingData] }
        else if (d.VL53LX_GetMultiRangingData (pollResp d m s).state).status = 0 then
          { ret := -1,
            state := (d.VL53LX_ClearInterruptAndStartMeasurement
              (d.VL53LX_GetMultiRangingData (pollResp d m s).state).state).state,
            trace := List.replicate (m + 1) Event.GetMeasurementDataReady
              ++ [Event.GetMultiRangingData] ++ [Event.ClearInterruptAndStartMeasurement] }
        else
          { ret := -1,
            state := (d.VL53LX_GetMultiRangingData (pollResp d m s).state).state,
            trace := List.replicate (m + 1) Event.GetMeasurementDataReady
              ++ [Event.GetMultiRangingData] }
      else
        { ret := -1, state := (pollResp d m s).state,
          trace := List.replicate (m + 1) Event.GetMeasurementDataReady }) := by
  have h2 : (pollResp d m s).ready ≠ 0 := h.2
  simp only [read_distance, waitReady_of_firstReady d m s h fuel hf]
  by_cases hs : (pollResp d m s).status = 0
  · by_cases hn :
      1 ≤ (d.VL53LX_GetMultiRangingData (pollResp d m s).state).data.NumberOfObjectsFound
    · have hn' : ((d.VL53LX_GetMultiRangingData
          (pollResp d m s).state).data.NumberOfObjectsFound : Int) ≥ 1 := by exact_mod_cast hn
      simp [hs, h2, hn, hn']
    · have hn' : ¬ ((d.VL53LX_GetMultiRangingData
          (pollResp d m s).state).data.NumberOfObjectsFound : Int) ≥ 1 := by
        intro hc; exact hn (by exact_mod_cast hc)
      by_cases hf2 : (d.VL53LX_GetMultiRangingData (pollResp d m s).state).status = 0
      · simp [hs, h2, hn, hn', hf2]
      · simp [hs, h2, hn, hn', hf2]
  · simp [hs]

/-- Closed form of `show_measurement` once the wait is known to end at poll `m + 1`. -/
theorem show_measurement_eq (d : Driver σ) (m : Nat) (s : σ) (h : FirstReady d s m)
    (fuel : Nat) (hf : m < fuel) :
    show_measurement d fuel s = some
      (if (pollResp d m s).status = 0 then
        if (d.VL53LX_GetMultiRangingData (pollResp d m s).state).status = 0 then
          { ret := (),
            state := (d.VL53LX_ClearInterruptAndStartMeasurement
              (d.VL53LX_GetMultiRangingData (pollResp d m s).state).state).state,
            trace := List.replicate (m + 1) Event.GetMeasurementDataReady
              ++ [Event.GetMultiRangingData]
              ++ report (d.VL53LX_GetMultiRangingData (pollResp d m s).state).data
              ++ [Event.ClearInterruptAndStartMeasurement] }
        else
          { ret := (),
            state := (d.VL53LX_GetMultiRangingData (pollResp d m s).state).state,
            trace := List.replicate (m + 1) Event.GetMeasurementDataReady
              ++ [Event.GetMultiRangingData]
              ++ report (d.VL53LX_GetMultiRangingData (pollResp d m s).state).data }
      else
        { ret := (), state := (pollResp d m s).state,
          trace := List.replicate (m + 1) Event.GetMeasurementDataReady }) := by
  have h2 : (pollResp d m s).ready ≠ 0 := h.2
  simp only [show_measurement, waitReady_of_firstReady d m s h fuel hf]
  by_cases hs : (pollResp d m s).status = 0
  · by_cases hf2 : (d.VL53LX_GetMultiRangingData (pollResp d m s).state).status = 0
    · simp [hs, h2, hf2]
    · simp [hs, h2, hf2]
  · simp [hs]

/-- Closed form of `read_measurement` once the wait is known to end at poll `m + 1`. -/
theorem read_measurement_eq (d : Driver σ) (m : Nat) (s : σ) (h : FirstReady d s m)
    (fuel : Nat) (hf : m < fuel) (buf : MultiRangingData) :
    read_measurement d fuel s buf = some
      (if (pollResp d m s).status ≠ 0 then
        { ret := false, data := buf, state := (pollResp d m s).state,
          trace := List.replicate (m + 1) Event.GetMeasurementDataReady }
      else
        { ret := true,
          data := (d.VL53LX_GetMultiRangingData (pollResp d m s).state).data,
          state := (d.VL53LX_GetMultiRangingData (pollResp d m s).state).state,
          trace := List.replicate (m + 1) Event.GetMeasurementDataReady
            ++ [Event.GetMultiRangingData] }) := by
  simp only [read_measurement, waitReady_of_firstReady d m s h fuel hf]
  by_cases hs : (pollResp d m s).status = 0
  · simp [hs]
  · simp [hs]

end ToFSensor

/-! ## Motor: contract -/

namespace Motor

/-- C7. From any pin state, each of goForward, goBackward, goLeft and goRight leaves
exactly two of the pins IN1..IN4 (10, 11, 12, 13) high and two low, with exactly one pin
high in each side pair (IN1/IN2 and IN3/IN4); the four resulting (IN1, IN2, IN3, IN4)
patterns are pairwise distinct, whatever states the commands started from; and stop leaves
all four pins low. -/
theorem motion_patterns (b b1 b2 b3 : Board) :
    TwoHighOnePerSide (goForward b) ∧ TwoHighOnePerSide (goBackward b)
    ∧ TwoHighOnePerSide (goLeft b) ∧ TwoHighOnePerSide (goRight b)
    ∧ [pins (goForward b), pins (goBackward b1), pins (goLeft b2), pins (goRight b3)].Nodup
    ∧ pins (stop b) = (LOW, LOW, LOW, LOW)
    ∧ motorPins = [10, 11, 12, 13] := by
  have key : ∀ (x : Board) (x1 x2 x3 x4 : Level), pins x = (x1, x2, x3, x4) →
      (x1 = HIGH ∧ x2 = LOW ∨ x1 = LOW ∧ x2 = HIGH) →
      (x3 = HIGH ∧ x4 = LOW ∨ x3 = LOW ∧ x4 = HIGH) → TwoHighOnePerSide x := by
    intro x x1 x2 x3 x4 hx h12 h34
    have hH := countLevel_of_pins HIGH x x1 x2 x3 x4 hx
    have hL := countLevel_of_pins LOW x x1 x2 x3 x4 hx
    unfold TwoHighOnePerSide
    rw [hH.1, hH.2.1, hH.2.2, hL.2.2]
    rcases h12 with ⟨rfl, rfl⟩ | ⟨rfl, rfl⟩ <;> rcases h34 with ⟨rfl, rfl⟩ | ⟨rfl, rfl⟩ <;>
      decide
  refine ⟨key _ _ _ _ _ (pins_goForward b) (by decide) (by decide),
    key _ _ _ _ _ (pins_goBackward b) (by decide) (by decide),
    key _ _ _ _ _ (pins_goLeft b) (by decide) (by decide),
    key _ _ _ _ _ (pins_goRight b) (by decide) (by decide), ?_, pins_stop b, rfl⟩
  rw [pins_goForward, pins_goBackward, pins_goLeft, pins_goRight]
  decide

/-- C8. Each command fully overwrites the levels of IN1..IN4: after any finite sequence
of commands the four levels are those the last command produces on its own from any other
board; hence running a command twice gives the same levels as running it once; and
goForward(); stop(); goRight() ends with IN1=high, IN2=low, IN3=low, IN4=high. -/
theorem last_command_wins (b b' : Board) (cs : List Command) (c : Command) :
    pins (runAll (cs ++ [c]) b) = pins (c.run b')
    ∧ pins (c.run (c.run b)) = pins (c.run b)
    ∧ pins (goRight (stop (goForward b))) = (HIGH, LOW, LOW, HIGH)
    ∧ pins (runAll [Command.goForward, Command.stop, Command.goRight] b)
        = (HIGH, LOW, LOW, HIGH) := by
  refine ⟨?_, pins_run_const c _ _, pins_goRight _, pins_goRight _⟩
  rw [runAll_append_singleton]
  exact pins_run_const c _ _

/-- C9. `Motor::initialize` sets the mode of each of IN1..IN4 (10, 11, 12, 13) to OUTPUT
with exactly one `pinMode` call per pin, changes the mode of no other pin and no level;
none of goForward, goBackward, goLeft, goRight, stop changes any mode or issues a `pinMode`
call, so after `initialize` the four pins stay OUTPUT under every command sequence. -/
theorem init_configures_outputs_once (b : Board) (c : Command) (cs : List Command) :
    (init b).mode 10 = OUTPUT ∧ (init b).mode 11 = OUTPUT
    ∧ (init b).mode 12 = OUTPUT ∧ (init b).mode 13 = OUTPUT
    ∧ (init b).mode = (fun p => if p ∈ motorPins then OUTPUT else b.mode p)
    ∧ (init b).level = b.level
    ∧ (init b).log = b.log ++ [GpioCall.pinMode 10 OUTPUT, GpioCall.pinMode 11 OUTPUT,
        GpioCall.pinMode 12 OUTPUT, GpioCall.pinMode 13 OUTPUT]
    ∧ (c.run b).mode = b.mode
    ∧ modeCalls (c.run b).log = modeCalls b.log
    ∧ (runAll cs (init b)).mode = (init b).mode
    ∧ modeCalls (runAll cs (init b)).log = modeCalls (init b).log := by
  have hmode : (init b).mode = (fun p => if p ∈ motorPins then OUTPUT else b.mode p) := by
    funext p
    simp only [init, pinMode, motorPins, motorIN1Pin, motorIN2Pin, motorIN3Pin, motorIN4Pin,
      List.mem_cons, List.mem_singleton, List.not_mem_nil, or_false]
    by_cases h1 : p = 10 <;> by_cases h2 : p = 11 <;> by_cases h3 : p = 12 <;>
      by_cases h4 : p = 13 <;> simp [h1, h2, h3, h4]
  have hrun : ∀ (c : Command) (x : Board),
      (c.run x).mode = x.mode ∧ modeCalls (c.run x).log = modeCalls x.log := by
    intro c x
    cases c <;>
      simp [Command.run, goForward, goBackward, goLeft, goRight, stop, digitalWrite, modeCalls]
  have hall : ∀ (l : List Command) (x : Board),
      (runAll l x).mode = x.mode ∧ modeCalls (runAll l x).log = modeCalls x.log := by
    intro l
    induction l with
    | nil => intro x; exact ⟨rfl, rfl⟩
    | cons a l ih =>
      intro x
      have h1 := ih (a.run x)
      have h2 := hrun a x
      simp only [runAll, List.foldl_cons] at h1 ⊢
      exact ⟨h1.1.trans h2.1, h1.2.trans h2.2⟩
  refine ⟨?_, ?_, ?_, ?_, hmode, rfl, ?_, (hrun c b).1, (hrun c b).2, (hall cs _).1,
    (hall cs _).2⟩
  · rw [hmode]; simp [motorPins, motorIN1Pin]
  · rw [hmode]; simp [motorPins, motorIN2Pin]
  · rw [hmode]; simp [motorPins, motorIN3Pin]
  · rw [hmode]; simp [motorPins, motorIN4Pin]
  · simp [init, pinMode, motorIN1Pin, motorIN2Pin, motorIN3Pin, motorIN4Pin]

end Motor

/-! ## ToFSensor: contract -/

namespace ToFSensor

variable {σ : Type}

/-- C1, counterexample. The sentinel does not imply an empty ranging result: on
`pollError` the only readiness poll answers status -1 with the flag raised while the sensor
holds a result with two objects, and `read_distance` returns -1 (tof.cpp 39 skips the
fetch). -/
theorem read_distance_sentinel_with_objects :
    FirstReady pollError 0 0
    ∧ (pollError.VL53LX_GetMultiRangingData 1).data.NumberOfObjectsFound = 2
    ∧ ((pollError.VL53LX_GetMultiRangingData 1).data.RangeData 0).RangeMilliMeter = 350
    ∧ (read_distance pollError 1 0).map (fun o => (o.ret, o.trace))
        = some (-1, [Event.GetMeasurementDataReady])
    ∧ ¬ ((read_distance pollError 1 0).map (fun o => o.ret) = some (-1)
        ↔ (pollError.VL53LX_GetMultiRangingData 1).data.NumberOfObjectsFound = 0) := by
  decide

/-- C1, amended. Whenever the readiness wait ends (at poll `m + 1`), `read_distance`
returns, and: if that poll reported a non-zero status it returns -1 without fetching a
ranging result; if it reported status 0 the result is fetched and the method returns -1
when `NumberOfObjectsFound = 0` and `RangeData[0].RangeMilliMeter` unchanged when
`NumberOfObjectsFound ≥ 1`. -/
theorem read_distance_value (d : Driver σ) (s : σ) (m : Nat) (h : FirstReady d s m) :
    ∃ o : Outcome σ Int,
      (∀ fuel, m < fuel → read_distance d fuel s = some o)
      ∧ ((pollResp d m s).status ≠ 0 →
          o.ret = -1 ∧ Event.GetMultiRangingData ∉ o.trace)
      ∧ ((pollResp d m s).status = 0 →
          Event.GetMultiRangingData ∈ o.trace
          ∧ ((d.VL53LX_GetMultiRangingData (pollResp d m s).state).data.NumberOfObjectsFound
              = 0 → o.ret = -1)
          ∧ (1 ≤ (d.VL53LX_GetMultiRangingData
                (pollResp d m s).state).data.NumberOfObjectsFound →
              o.ret = ((d.VL53LX_GetMultiRangingData (pollResp d m s).state).data.RangeData
                0).RangeMilliMeter)) := by
  refine ⟨_, fun fuel hf => read_distance_eq d m s h fuel hf, ?_, ?_⟩
  · intro hs
    rw [if_neg hs]
    exact ⟨rfl, by simp⟩
  · intro hs
    rw [if_pos hs]
    refine ⟨?_, ?_, ?_⟩
    · split_ifs <;> simp
    · intro hn
      rw [if_neg (by omega)]
      split_ifs <;> rfl
    · intro hn
      rw [if_pos hn]

/-- C1, instance: `twoObjectsLate`, where the wait ends at the third poll. -/
theorem read_distance_value_witness :
    FirstReady twoObjectsLate 0 2
    ∧ ∃ o : Outcome Nat Int,
      (∀ fuel, 2 < fuel → read_distance twoObjectsLate fuel 0 = some o)
      ∧ ((pollResp twoObjectsLate 2 0).status ≠ 0 →
          o.ret = -1 ∧ Event.GetMultiRangingData ∉ o.trace)
      ∧ ((pollResp twoObjectsLate 2 0).status = 0 →
          Event.GetMultiRangingData ∈ o.trace
          ∧ ((twoObjectsLate.VL53LX_GetMultiRangingData
                (pollResp twoObjectsLate 2 0).state).data.NumberOfObjectsFound = 0 →
              o.ret = -1)
          ∧ (1 ≤ (twoObjectsLate.VL53LX_GetMultiRangingData
                (pollResp twoObjectsLate 2 0).state).data.NumberOfObjectsFound →
              o.ret = ((twoObjectsLate.VL53LX_GetMultiRangingData
                (pollResp twoObjectsLate 2 0).state).data.RangeData 0).RangeMilliMeter)) :=
  ⟨by decide, read_distance_value twoObjectsLate 0 2 (by decide)⟩

/-- C2, counterexample. With an empty ranging result the measurement cycle is restarted:
on `noObjects` (poll and fetch succeed, `NumberOfObjectsFound = 0`) `read_distance`
returns -1 and its last driver call is `VL53LX_ClearInterruptAndStartMeasurement`
(tof.cpp 46-48). -/
theorem read_distance_empty_result_restarts :
    FirstReady noObjects 0 0
    ∧ (noObjects.VL53LX_GetMultiRangingData 1).data.NumberOfObjectsFound = 0
    ∧ (read_distance noObjects 1 0).map (fun o => (o.ret, o.trace))
        = some (-1, [Event.GetMeasurementDataReady, Event.GetMultiRangingData,
            Event.ClearInterruptAndStartMeasurement]) := by
  decide

/-- C2, amended. Whenever the readiness wait ends with status 0 and the fetched ranging
result has `NumberOfObjectsFound = 0`, `read_distance` returns -1; it calls
`VL53LX_ClearInterruptAndStartMeasurement` exactly once, as its last driver call, when the
fetch reported status 0, and not at all when the fetch reported a non-zero status. -/
theorem read_distance_empty_result (d : Driver σ) (s : σ) (m : Nat)
    (h : FirstReady d s m) (hs : (pollResp d m s).status = 0)
    (hn : (d.VL53LX_GetMultiRangingData (pollResp d m s).state).data.NumberOfObjectsFound
      = 0) :
    ∃ o : Outcome σ Int,
      (∀ fuel, m < fuel → read_distance d fuel s = some o)
      ∧ o.ret = -1
      ∧ o.trace = List.replicate (m + 1) Event.GetMeasurementDataReady
          ++ [Event.GetMultiRangingData]
          ++ (if (d.VL53LX_GetMultiRangingData (pollResp d m s).state).status = 0
              then [Event.ClearInterruptAndStartMeasurement] else [])
      ∧ o.trace.count Event.ClearInterruptAndStartMeasurement
          = (if (d.VL53LX_GetMultiRangingData (pollResp d m s).state).status = 0
              then 1 else 0) := by
  refine ⟨_, fun fuel hf => read_distance_eq d m s h fuel hf, ?_, ?_, ?_⟩ <;>
    rw [if_pos hs, if_neg (by omega)] <;> split_ifs <;>
    simp [count_replicate_other]

/-- C2, instance: `noObjects`. -/
theorem read_distance_empty_result_witness :
    (FirstReady noObjects 0 0 ∧ (pollResp noObjects 0 0).status = 0
      ∧ (noObjects.VL53LX_GetMultiRangingData
          (pollResp noObjects 0 0).state).data.NumberOfObjectsFound = 0)
    ∧ ∃ o : Outcome Nat Int,
      (∀ fuel, 0 < fuel → read_distance noObjects fuel 0 = some o)
      ∧ o.ret = -1
      ∧ o.trace = List.replicate (0 + 1) Event.GetMeasurementDataReady
          ++ [Event.GetMultiRangingData]
          ++ (if (noObjects.VL53LX_GetMultiRangingData (pollResp noObjects 0 0).state).status
                = 0
              then [Event.ClearInterruptAndStartMeasurement] else [])
      ∧ o.trace.count Event.ClearInterruptAndStartMeasurement
          = (if (noObjects.VL53LX_GetMultiRangingData (pollResp noObjects 0 0).state).status
                = 0
              then 1 else 0) :=
  ⟨by decide, read_distance_empty_result noObjects 0 0 (by decide) (by decide) (by decide)⟩

/-- C3, failing input. On `twoObjects` (poll and fetch succeed, two objects, the first at
350 mm) `read_distance` returns 350 from tof.cpp 44, before the restart of tof.cpp 46-48:
its driver calls are one poll and one fetch, and no
`VL53LX_ClearInterruptAndStartMeasurement`. -/
theorem read_distance_objects_found_no_restart :
    FirstReady twoObjects 0 0
    ∧ (pollResp twoObjects 0 0).status = 0
    ∧ (twoObjects.VL53LX_GetMultiRangingData 1).status = 0
    ∧ (twoObjects.VL53LX_GetMultiRangingData 1).data.NumberOfObjectsFound = 2
    ∧ ((twoObjects.VL53LX_GetMultiRangingData 1).data.RangeData 0).RangeMilliMeter = 350
    ∧ (read_distance twoObjects 1 0).map (fun o => (o.ret, o.trace))
        = some (350, [Event.GetMeasurementDataReady, Event.GetMultiRangingData])
    ∧ (show_measurement twoObjects 1 0).map
        (fun o => o.trace.count Event.ClearInterruptAndStartMeasurement) = some 1 := by
  decide

/-- C4, counterexample. A failed fetch is not reported: on `fetchError` the readiness poll
answers status 0 and `VL53LX_GetMultiRangingData` answers status -1, and `read_measurement`
returns true (tof.cpp 99 discards the status of the fetch). -/
theorem read_measurement_true_on_failed_fetch :
    FirstReady fetchError 0 0
    ∧ (pollResp fetchError 0 0).status = 0
    ∧ (fetchError.VL53LX_GetMultiRangingData 1).status = -1
    ∧ (read_measurement fetchError 1 0 (sampleData 0 0)).map (fun o => (o.ret, o.trace))
        = some (true, [Event.GetMeasurementDataReady, Event.GetMultiRangingData]) := by
  decide

/-- C4, amended. Whenever the readiness wait ends (at poll `m + 1`), `read_measurement`
returns, and it returns false if and only if that poll reported a non-zero status (the
status of the fetch is not examined); whenever it returns true, the caller's structure
equals the ranging data the driver's fetch produced. -/
theorem read_measurement_result (d : Driver σ) (s : σ) (m : Nat) (buf : MultiRangingData)
    (h : FirstReady d s m) :
    ∃ o : MeasurementOutcome σ,
      (∀ fuel, m < fuel → read_measurement d fuel s buf = some o)
      ∧ (o.ret = false ↔ (pollResp d m s).status ≠ 0)
      ∧ (o.ret = true →
          o.data = (d.VL53LX_GetMultiRangingData (pollResp d m s).state).data) := by
  refine ⟨_, fun fuel hf => read_measurement_eq d m s h fuel hf buf, ?_, ?_⟩ <;>
    split_ifs with hs <;> simp_all

/-- C4, instance: `fetchError`, with a caller structure that held no object on entry. -/
theorem read_measurement_result_witness :
    FirstReady fetchError 0 0
    ∧ ∃ o : MeasurementOutcome Nat,
      (∀ fuel, 0 < fuel → read_measurement fetchError fuel 0 (sampleData 0 0) = some o)
      ∧ (o.ret = false ↔ (pollResp fetchError 0 0).status ≠ 0)
      ∧ (o.ret = true →
          o.data = (fetchError.VL53LX_GetMultiRangingData
            (pollResp fetchError 0 0).state).data) :=
  ⟨by decide, read_measurement_result fetchError 0 0 (sampleData 0 0) (by decide)⟩

/-- C5. Whenever `show_measurement` succeeds (the poll that ends the wait reports status 0
and the fetch reports status 0), whatever the object count, its trace is: the readiness
polls, the fetch, all of its serial output, and then one
`VL53LX_ClearInterruptAndStartMeasurement` call, which is the only one in the trace. -/
theorem show_measurement_restarts (d : Driver σ) (s : σ) (m : Nat)
    (h : FirstReady d s m) (hs : (pollResp d m s).status = 0)
    (hf : (d.VL53LX_GetMultiRangingData (pollResp d m s).state).status = 0) :
    ∃ o : Outcome σ Unit,
      (∀ fuel, m < fuel → show_measurement d fuel s = some o)
      ∧ o.trace = List.replicate (m + 1) Event.GetMeasurementDataReady
          ++ [Event.GetMultiRangingData]
          ++ report (d.VL53LX_GetMultiRangingData (pollResp d m s).state).data
          ++ [Event.ClearInterruptAndStartMeasurement]
      ∧ o.trace.count Event.ClearInterruptAndStartMeasurement = 1 := by
  refine ⟨_, fun fuel hf => show_measurement_eq d m s h fuel hf, ?_, ?_⟩ <;>
    rw [if_pos hs, if_pos hf]
  have := List.count_eq_zero.mpr
    (clear_not_mem_report (d.VL53LX_GetMultiRangingData (pollResp d m s).state).data)
  simp [count_replicate_other, this]

/-- C5, instance: `noObjects`, a successful read with object count 0. -/
theorem show_measurement_restarts_witness :
    (FirstReady noObjects 0 0 ∧ (pollResp noObjects 0 0).status = 0
      ∧ (noObjects.VL53LX_GetMultiRangingData (pollResp noObjects 0 0).state).status = 0
      ∧ (noObjects.VL53LX_GetMultiRangingData
          (pollResp noObjects 0 0).state).data.NumberOfObjectsFound = 0)
    ∧ ∃ o : Outcome Nat Unit,
      (∀ fuel, 0 < fuel → show_measurement noObjects fuel 0 = some o)
      ∧ o.trace = List.replicate (0 + 1) Event.GetMeasurementDataReady
          ++ [Event.GetMultiRangingData]
          ++ report (noObjects.VL53LX_GetMultiRangingData (pollResp noObjects 0 0).state).data
          ++ [Event.ClearInterruptAndStartMeasurement]
      ∧ o.trace.count Event.ClearInterruptAndStartMeasurement = 1 :=
  ⟨by decide,
   show_measurement_restarts noObjects 0 0 (by decide) (by decide) (by decide)⟩

/-- C6. Whenever the readiness wait ends (at poll `m + 1`), `read_measurement` returns, its
trace holds neither `VL53LX_ClearInterruptAndStartMeasurement` nor
`VL53LX_StartMeasurement`, and it consists of the `m + 1` readiness polls followed by one
`VL53LX_GetMultiRangingData` exactly when the result is true. -/
theorem read_measurement_never_restarts (d : Driver σ) (s : σ) (m : Nat)
    (buf : MultiRangingData) (h : FirstReady d s m) :
    ∃ o : MeasurementOutcome σ,
      (∀ fuel, m < fuel → read_measurement d fuel s buf = some o)
      ∧ Event.ClearInterruptAndStartMeasurement ∉ o.trace
      ∧ Event.StartMeasurement ∉ o.trace
      ∧ o.trace = List.replicate (m + 1) Event.GetMeasurementDataReady
          ++ (if o.ret = true then [Event.GetMultiRangingData] else [])
      ∧ (Event.GetMultiRangingData ∈ o.trace ↔ o.ret = true) := by
  by_cases hs : (pollResp d m s).status = 0
  · refine ⟨_, fun fuel hf => read_measurement_eq d m s h fuel hf buf, ?_⟩
    rw [if_neg (not_not.mpr hs)]
    simp
  · refine ⟨_, fun fuel hf => read_measurement_eq d m s h fuel hf buf, ?_⟩
    rw [if_pos hs]
    simp

/-- C6, instance: `twoObjectsLate`, where the wait ends at the third poll. -/
theorem read_measurement_never_restarts_witness :
    FirstReady twoObjectsLate 0 2
    ∧ ∃ o : MeasurementOutcome Nat,
      (∀ fuel, 2 < fuel → read_measurement twoObjectsLate fuel 0 (sampleData 0 0) = some o)
      ∧ Event.ClearInterruptAndStartMeasurement ∉ o.trace
      ∧ Event.StartMeasurement ∉ o.trace
      ∧ o.trace = List.replicate (2 + 1) Event.GetMeasurementDataReady
          ++ (if o.ret = true then [Event.GetMultiRangingData] else [])
      ∧ (Event.GetMultiRangingData ∈ o.trace ↔ o.ret = true) :=
  ⟨by decide, read_measurement_never_restarts twoObjectsLate 0 2 (sampleData 0 0) (by decide)⟩

/-- C10. The three read operations share one readiness wait, bounded only by the driver.
If the first response with a non-zero flag is the one to poll `m + 1`, each of
`read_distance`, `show_measurement` and `read_measurement` returns once it is given fuel for
`m + 1` polls and not with less; its trace starts with `m + 1` readiness polls and holds no
other poll, so no other driver call precedes poll `m + 1`; and a driver `d'` that differs
from `d` only in the statuses of its polls, and agrees on the status of poll `m + 1`, gives
the same outcomes (the earlier statuses are discarded). If the driver `e` never raises the
flag, none of the three operations returns, whatever the fuel. -/
theorem readiness_wait {τ : Type} (d d' : Driver σ) (s : σ) (m : Nat)
    (buf : MultiRangingData) (e : Driver τ) (t : τ)
    (h : FirstReady d s m) (hd : SameUpToPollStatus d d')
    (hst : (pollResp d' m s).status = (pollResp d m s).status) (hn : NeverReady e t) :
    (∃ (o1 : Outcome σ Int) (o2 : Outcome σ Unit) (o3 : MeasurementOutcome σ),
      (∀ fuel, m < fuel →
        read_distance d fuel s = some o1 ∧ show_measurement d fuel s = some o2
          ∧ read_measurement d fuel s buf = some o3)
      ∧ (∀ fuel, fuel ≤ m →
        read_distance d fuel s = none ∧ show_measurement d fuel s = none
          ∧ read_measurement d fuel s buf = none)
      ∧ (∀ fuel, m < fuel →
        read_distance d' fuel s = some o1 ∧ show_measurement d' fuel s = some o2
          ∧ read_measurement d' fuel s buf = some o3)
      ∧ (o1.trace.take (m + 1) = List.replicate (m + 1) Event.GetMeasurementDataReady
          ∧ pollCount o1.trace = m + 1)
      ∧ (o2.trace.take (m + 1) = List.replicate (m + 1) Event.GetMeasurementDataReady
          ∧ pollCount o2.trace = m + 1)
      ∧ (o3.trace.take (m + 1) = List.replicate (m + 1) Event.GetMeasurementDataReady
          ∧ pollCount o3.trace = m + 1))
    ∧ (∀ fuel, read_distance e fuel t = none ∧ show_measurement e fuel t = none
        ∧ read_measurement e fuel t buf = none) := by
  have h' : FirstReady d' s m := (waitReady_congr hd m s h).1
  have hp := pollResp_congr hd m s h hst
  have hrep := List.count_eq_zero.mpr
    (poll_not_mem_report (d.VL53LX_GetMultiRangingData (pollResp d m s).state).data)
  have hone : List.take (m + 1) (List.replicate (m + 1) Event.GetMeasurementDataReady)
      = List.replicate (m + 1) Event.GetMeasurementDataReady := by
    simp
  refine ⟨⟨_, _, _, fun fuel hf => ⟨read_distance_eq d m s h fuel hf,
      show_measurement_eq d m s h fuel hf, read_measurement_eq d m s h fuel hf buf⟩,
    ?_, ?_, ?_, ?_, ?_⟩, ?_⟩
  · intro fuel hf
    simp [read_distance, show_measurement, read_measurement, waitReady_none_of_le d m s h fuel hf]
  · intro fuel hf
    rw [read_distance_eq d' m s h' fuel hf, show_measurement_eq d' m s h' fuel hf,
      read_measurement_eq d' m s h' fuel hf buf, hp, ← hd.2.1, ← hd.2.2]
    exact ⟨rfl, rfl, rfl⟩
  · split_ifs <;>
      simp [List.append_assoc, take_polls_append, hone, pollCount, List.count_append]
  · split_ifs <;>
      simp [List.append_assoc, take_polls_append, hone, pollCount, List.count_append, hrep]
  · split_ifs <;>
      simp [List.append_assoc, take_polls_append, hone, pollCount, List.count_append]
  · intro fuel
    simp [read_distance, show_measurement, read_measurement, waitReady_of_neverReady e fuel t hn]

/-- C10, instance: `twoObjectsLate` and `twoObjectsLateAlt` raise the flag at the third
poll and differ in the statuses of the first two; `silent` never raises it. -/
theorem readiness_wait_witness :
    (FirstReady twoObjectsLate 0 2 ∧ SameUpToPollStatus twoObjectsLate twoObjectsLateAlt
      ∧ (pollResp twoObjectsLateAlt 2 0).status = (pollResp twoObjectsLate 2 0).status
      ∧ (pollResp twoObjectsLateAlt 0 0).status ≠ (pollResp twoObjectsLate 0 0).status
      ∧ NeverReady silent ())
    ∧ (∃ (o1 : Outcome Nat Int) (o2 : Outcome Nat Unit) (o3 : MeasurementOutcome Nat),
      (∀ fuel, 2 < fuel →
        read_distance twoObjectsLate fuel 0 = some o1
          ∧ show_measurement twoObjectsLate fuel 0 = some o2
          ∧ read_measurement twoObjectsLate fuel 0 (sampleData 0 0) = some o3)
      ∧ (∀ fuel, fuel ≤ 2 →
        read_distance twoObjectsLate fuel 0 = none
          ∧ show_measurement twoObjectsLate fuel 0 = none
          ∧ read_measurement twoObjectsLate fuel 0 (sampleData 0 0) = none)
      ∧ (∀ fuel, 2 < fuel →
        read_distance twoObjectsLateAlt fuel 0 = some o1
          ∧ show_measurement twoObjectsLateAlt fuel 0 = some o2
          ∧ read_measurement twoObjectsLateAlt fuel 0 (sampleData 0 0) = some o3)
      ∧ (o1.trace.take (2 + 1) = List.replicate (2 + 1) Event.GetMeasurementDataReady
          ∧ pollCount o1.trace = 2 + 1)
      ∧ (o2.trace.take (2 + 1) = List.replicate (2 + 1) Event.GetMeasurementDataReady
          ∧ pollCount o2.trace = 2 + 1)
      ∧ (o3.trace.take (2 + 1) = List.replicate (2 + 1) Event.GetMeasurementDataReady
          ∧ pollCount o3.trace = 2 + 1))
    ∧ (∀ fuel, read_distance silent fuel () = none ∧ show_measurement silent fuel () = none
        ∧ read_measurement silent fuel () (sampleData 0 0) = none) :=
  have hsame : SameUpToPollStatus twoObjectsLate twoObjectsLateAlt :=
    ⟨fun i => ⟨rfl, by
      rcases i with _ | _ | _ | i <;> simp [twoObjectsLate, twoObjectsLateAlt, scripted]⟩,
     rfl, rfl⟩
  have hnever : NeverReady silent () := fun _ => rfl
  ⟨⟨by decide, hsame, by decide, by decide, hnever⟩,
   readiness_wait twoObjectsLate twoObjectsLateAlt 0 2 (sampleData 0 0) silent ()
     (by decide) hsame (by decide) hnever⟩

end ToFSensor

end Hardware
